import Mathlib

/-!
Verification of the Cerebro API quotation/order service (`src/main.py`).

The service is embedded shallowly: the Postgres database becomes a record of
table contents (lists of rows, inserts append, deletes filter), Python
exceptions become an `Except` value threaded through each handler's `try`
block, and every FastAPI endpoint becomes a pure function from an
environment, a database state and the request input to an HTTP result
paired with the post-state.  A write becomes durable only at `conn.commit()`;
a handler whose `try` block raises returns the original state, mirroring
`conn.close()` without commit (psycopg2 discards the open transaction).
Note that `fastapi.HTTPException` subclasses `Exception`, so an
`HTTPException` raised inside a handler's `try` block is caught by the
generic `except Exception` clause and re-raised as a 500.
-/

/-- A request-payload value as it appears in the loosely-typed `List[dict]`
items of `/cotizaciones/actualizar` and (per the spec) `/ordenes/nueva`:
the handlers only ever receive JSON strings or integers in the three keys
they read. -/
inductive PyVal where
  | str (s : String)
  | int (n : Int)
deriving Repr, DecidableEq

/-- Python `str()` applied to a payload value. -/
def pyStr : PyVal → String
  | .str s => s
  | .int n => toString n

/-- Base-10 digit-run parse: `none` on an empty run or any non-digit. -/
def digits? : List Char → Option Nat
  | [] => none
  | l => l.foldl (fun acc c =>
      match acc with
      | none => none
      | some n => if c.isDigit then some (n * 10 + (c.toNat - Char.toNat '0')) else none)
      (some 0)

/-- Python `int()` on a string: optional surrounding whitespace, optional
sign, then a nonempty digit run; anything else raises `ValueError`. -/
def pyIntOfChars (l : List Char) : Option Int :=
  let t := ((l.dropWhile Char.isWhitespace).reverse.dropWhile Char.isWhitespace).reverse
  match t with
  | '-' :: rest => (digits? rest).map (fun n => -(n : Int))
  | '+' :: rest => (digits? rest).map (fun n => (n : Int))
  | _ => (digits? t).map (fun n => (n : Int))

/-- Python `int()` applied to a payload value: identity on integers,
base-10 parse on strings (raising, i.e. `none`, on a non-numeric string). -/
def pyInt? : PyVal → Option Int
  | .int n => some n
  | .str s => pyIntOfChars s.data

/-- Adapting a payload value as a parameter for a `text` column: a string
passes through; an integer parameter raises a type error in Postgres. -/
def pyText? : PyVal → Option String
  | .str s => some s
  | .int _ => none

/-- An exception raised inside a handler's `try` block. -/
inductive PyExc where
  | httpExc (status : Nat) (detail : String)
  | uniqueViolation (msg : String)
  | valueError (msg : String)
  | dbError (msg : String)
deriving Repr, DecidableEq

/-- Python `str(e)` for the exceptions above (Starlette's `HTTPException`
renders as `"<status>: <detail>"`). -/
def pyExcStr : PyExc → String
  | .httpExc c d => toString c ++ ": " ++ d
  | .uniqueViolation m => m
  | .valueError m => m
  | .dbError m => m

/-- Outcome of one HTTP request: a success status with a typed body, or an
`HTTPException` that escaped the handler (status plus `detail`). -/
inductive HttpResult (α : Type) where
  | ok (status : Nat) (body : α)
  | err (status : Nat) (detail : String)
deriving Repr, DecidableEq

-- ### Table rows

/-- A row of the `cotizaciones` table (spec §3, Quotation). -/
structure Cotizacion where
  folio : String
  documento_id : String
  nombre_paciente : String
  fecha_cotizacion : Nat
  total_copago : Int
deriving Repr, DecidableEq

/-- A row of the `detalle_cotizaciones` table (spec §3, Quotation Line Item). -/
structure DetalleCotizacion where
  folio_cotizacion : String
  codigo_examen : String
  nombre_examen : String
  valor_copago : Int
deriving Repr, DecidableEq

/-- A row of the `ordenes_medicas` table written by `/ordenes/generar`. -/
structure OrdenMedica where
  folio_cotizacion : String
  rut_paciente : String
deriving Repr, DecidableEq

/-- Modelled from the spec: an Order header row for the `/ordenes/nueva`
variant, with a system-assigned sequential `folio_orden` (spec §3, Medical
Order); the endpoint and its DDL are not under `src/`. -/
structure OrdenNueva where
  folio_orden : Nat
  folio_cotizacion : String
  rut_paciente : String
deriving Repr, DecidableEq

/-- Modelled from the spec: an Order Line Item row for `/ordenes/nueva`
(spec §3: `folio_orden` FK, `codigo_examen`, `nombre_examen`). -/
structure OrdenDetalle where
  folio_orden : Nat
  codigo_examen : String
  nombre_examen : String
deriving Repr, DecidableEq

/-- A row of the `auditoria_examenes` table.  `fecha_emision` is the
system-assigned emission timestamp (spec §3; the DDL is not under `src/`,
so the column is modelled as assigned at insert time). -/
structure AuditoriaExamen where
  rut_paciente : String
  nombre_paciente : String
  folio_origen : String
  cantidad_examenes : Int
  codigos_json : String
  fecha_emision : Nat
deriving Repr, DecidableEq

/-- The database state: the content of every table the service touches. -/
structure DB where
  cotizaciones : List Cotizacion
  detalle_cotizaciones : List DetalleCotizacion
  ordenes_medicas : List OrdenMedica
  ordenes_nuevas : List OrdenNueva
  ordenes_detalles : List OrdenDetalle
  auditoria_examenes : List AuditoriaExamen
deriving Repr, DecidableEq

/-- The empty database. -/
def DB.empty : DB := ⟨[], [], [], [], [], []⟩

-- ### Connection logic (`conectar_db`, main.py:43-63)

/-- The process environment and reachability of the database:
`connect_ok` models whether `psycopg2.connect` succeeds when attempted. -/
structure Env where
  postgres_host : Option String
  postgres_database : Option String
  postgres_user : Option String
  postgres_password : Option String
  postgres_port : Option String
  connect_ok : Bool
deriving Repr, DecidableEq

/-- `conectar_db` (main.py:43-63): returns a connection only when
`POSTGRES_HOST` is set and the connection attempt succeeds; otherwise
`None`. -/
def conectar_db (env : Env) : Option Unit :=
  match env.postgres_host with
  | some _ => if env.connect_ok then some () else none
  | none => none

-- ### Request and response bodies

/-- `DetalleBase` (main.py:15-18): the response rows of
`GET /cotizaciones/detalle/{folio}`. -/
structure DetalleBase where
  codigo_examen : String
  nombre_examen : String
  valor_copago : Int
deriving Repr, DecidableEq

/-- `OrdenMedicaIn` (main.py:20-22): the body of `POST /ordenes/generar`. -/
structure OrdenMedicaIn where
  folio : String
  rut : String
deriving Repr, DecidableEq

/-- One loosely-typed item of `ActualizarCotizacionIn.items`: only the three
keys the handler reads (`'Codigo Ingreso'`,
`'Nombre prestación en Fonasa o Particular'`, `'Copago'`) are represented;
a `none` field is a key absent from the dict. -/
structure ItemDict where
  codigoIngreso : Option PyVal
  nombrePrestacion : Option PyVal
  copago : Option PyVal
deriving Repr, DecidableEq

/-- `ActualizarCotizacionIn` (main.py:30-32). -/
structure ActualizarCotizacionIn where
  folio : String
  items : List ItemDict
deriving Repr, DecidableEq

/-- `AuditoriaOrdenIn` (main.py:34-39). -/
structure AuditoriaOrdenIn where
  rut_paciente : String
  nombre_paciente : String
  folio_origen : String
  cantidad_examenes : Int
  codigos : List String
deriving Repr, DecidableEq

/-- The `{"status": ..., "message": ...}` success body shared by the write
endpoints. -/
structure StatusMsg where
  status : String
  message : String
deriving Repr, DecidableEq

/-- `json.dumps` of a list of strings. -/
def jsonDumps (codigos : List String) : String :=
  let esc := fun (s : String) =>
    s.foldl (fun acc c =>
      if c = '"' then acc ++ "\\\""
      else if c = '\\' then acc ++ "\\\\"
      else acc.push c) ""
  "[" ++ String.intercalate ", " (codigos.map (fun s => "\"" ++ esc s ++ "\"")) ++ "]"

-- ### GET /cotizaciones/buscar/{rut} (main.py:67-82)

/-- `ORDER BY fecha_cotizacion DESC` on the `cotizaciones` table. -/
def fechaDescRel (a b : Cotizacion) : Prop :=
  b.fecha_cotizacion ≤ a.fecha_cotizacion

instance : DecidableRel fechaDescRel := fun a b =>
  inferInstanceAs (Decidable (b.fecha_cotizacion ≤ a.fecha_cotizacion))

instance : IsTotal Cotizacion fechaDescRel :=
  ⟨fun a b => Nat.le_total b.fecha_cotizacion a.fecha_cotizacion⟩

instance : IsTrans Cotizacion fechaDescRel :=
  ⟨fun _ _ _ h h' => Nat.le_trans h' h⟩

/-- The `try` block of `buscar_cotizaciones_por_rut` (main.py:71-79): select
the quotations matching the identifier ordered by date descending, then —
when zero rows came back — raise `HTTPException(404)`. -/
def buscar_try (st : DB) (rut : String) : Except PyExc (List Cotizacion) :=
  if (List.insertionSort fechaDescRel
      (st.cotizaciones.filter (fun c => c.documento_id == rut))).isEmpty then
    Except.error (PyExc.httpExc 404 "No se encontraron cotizaciones")
  else
    Except.ok (List.insertionSort fechaDescRel
      (st.cotizaciones.filter (fun c => c.documento_id == rut)))

/-- `buscar_cotizaciones_por_rut` (main.py:67-82).  The `HTTPException(404)`
raised inside the `try` block is itself an `Exception`, so the generic
`except Exception` clause (main.py:80-82) catches it and re-raises
`HTTPException(500, str(e))`. -/
def buscar_cotizaciones_por_rut (env : Env) (st : DB) (rut : String) :
    HttpResult (List Cotizacion) × DB :=
  match conectar_db env with
  | none => (HttpResult.err 500 "Error de conexión a DB", st)
  | some _ =>
    match buscar_try st rut with
    | Except.ok rows => (HttpResult.ok 200 rows, st)
    | Except.error e => (HttpResult.err 500 (pyExcStr e), st)

-- ### GET /cotizaciones/detalle/{folio} (main.py:84-99)

/-- `obtener_detalle_cotizacion` (main.py:84-99): select the three detail
columns of the line items stored for the folio (no `ORDER BY`; rows come
back in stored order). -/
def obtener_detalle_cotizacion (env : Env) (st : DB) (folio : String) :
    HttpResult (List DetalleBase) × DB :=
  match conectar_db env with
  | none => (HttpResult.err 500 "Error de conexión a DB", st)
  | some _ =>
    let rows := (st.detalle_cotizaciones.filter
        (fun r => r.folio_cotizacion == folio)).map
      (fun r => DetalleBase.mk r.codigo_examen r.nombre_examen r.valor_copago)
    (HttpResult.ok 200 rows, st)

-- ### POST /cotizaciones/actualizar (main.py:101-128)

/-- One iteration of the insert loop (main.py:112-121): build the parameter
tuple — `str(item.get('Codigo Ingreso', ''))`, the raw
`item.get('Nombre prestación en Fonasa o Particular', '')`, and
`int(item.get('Copago', 0))`, which raises `ValueError` on a non-numeric
string — then execute the INSERT, which fails if the name value is not
adaptable to the `text` column. -/
def normalizeItem (folio : String) (d : ItemDict) :
    Except PyExc DetalleCotizacion :=
  let codigo := pyStr (d.codigoIngreso.getD (PyVal.str ""))
  match pyInt? (d.copago.getD (PyVal.int 0)) with
  | none => Except.error (PyExc.valueError "invalid literal for int() with base 10")
  | some cop =>
    match pyText? (d.nombrePrestacion.getD (PyVal.str "")) with
    | none => Except.error (PyExc.dbError "column nombre_examen is of type text")
    | some nom => Except.ok (DetalleCotizacion.mk folio codigo nom cop)

/-- The `for item in data.items` loop: run `f` on each element in order,
stopping at the first raised exception. -/
def execEach {α β : Type} (f : α → Except PyExc β) : List α → Except PyExc (List β)
  | [] => Except.ok []
  | a :: l => do
    let b ← f a
    let bs ← execEach f l
    Except.ok (b :: bs)

/-- The `try` block of `actualizar_cotizacion` (main.py:106-125): delete all
line items of the folio, insert the normalized replacement items in order,
then `conn.commit()`. -/
def actualizar_try (st : DB) (data : ActualizarCotizacionIn) :
    Except PyExc (StatusMsg × DB) := do
  let st1 := { st with detalle_cotizaciones :=
    st.detalle_cotizaciones.filter (fun r => r.folio_cotizacion != data.folio) }
  let rows ← execEach (normalizeItem data.folio) data.items
  let st2 := { st1 with detalle_cotizaciones := st1.detalle_cotizaciones ++ rows }
  Except.ok (StatusMsg.mk "success"
    ("Detalle del folio " ++ data.folio ++ " actualizado"), st2)

/-- `actualizar_cotizacion` (main.py:101-128).  On any exception the
connection is closed without commit, so the database keeps its prior state
and the handler raises `HTTPException(500, str(e))`. -/
def actualizar_cotizacion (env : Env) (st : DB) (data : ActualizarCotizacionIn) :
    HttpResult StatusMsg × DB :=
  match conectar_db env with
  | none => (HttpResult.err 500 "Error de conexión a DB", st)
  | some _ =>
    match actualizar_try st data with
    | Except.ok (body, st') => (HttpResult.ok 200 body, st')
    | Except.error e => (HttpResult.err 500 (pyExcStr e), st)

-- ### POST /auditoria/ordenes (main.py:130-156)

/-- The audit row inserted by `registrar_auditoria` (main.py:138-149):
the code list is serialized with `json.dumps` and `fecha_emision` is the
system timestamp `now` assigned at insert. -/
def auditRow (audit : AuditoriaOrdenIn) (now : Nat) : AuditoriaExamen :=
  AuditoriaExamen.mk audit.rut_paciente audit.nombre_paciente audit.folio_origen
    audit.cantidad_examenes (jsonDumps audit.codigos) now

/-- `registrar_auditoria` (main.py:130-156): insert one audit record and
commit. -/
def registrar_auditoria (env : Env) (st : DB) (audit : AuditoriaOrdenIn)
    (now : Nat) : HttpResult StatusMsg × DB :=
  match conectar_db env with
  | none => (HttpResult.err 500 "Error de conexión a DB", st)
  | some _ =>
    (HttpResult.ok 200 (StatusMsg.mk "success" "Auditoría registrada"),
     { st with auditoria_examenes := st.auditoria_examenes ++ [auditRow audit now] })

-- ### POST /ordenes/generar (main.py:158-172)

/-- Modelled from the spec: the `ordenes_medicas` table carries a uniqueness
constraint on the originating-quotation reference `folio_cotizacion` (spec
§3/§4.3); the DDL is not under `src/`.  An INSERT whose `folio_cotizacion`
is already present raises a unique-violation error. -/
def insertOrdenMedica (st : DB) (folio rut : String) : Except PyExc DB :=
  if st.ordenes_medicas.any (fun o => o.folio_cotizacion == folio) then
    Except.error (PyExc.uniqueViolation
      "duplicate key value violates unique constraint")
  else
    Except.ok { st with ordenes_medicas :=
      (st.ordenes_medicas ++ [OrdenMedica.mk folio rut]) }

/-- The `try` block of `generar_orden_medica` (main.py:162-169): insert the
order row and commit. -/
def generar_try (st : DB) (orden : OrdenMedicaIn) :
    Except PyExc (StatusMsg × DB) := do
  let st' ← insertOrdenMedica st orden.folio orden.rut
  Except.ok (StatusMsg.mk "success"
    ("Orden vinculada al folio " ++ orden.folio), st')

/-- `generar_orden_medica` (main.py:158-172).  Every exception — the
unique-violation included — reaches the generic `except Exception` clause
(main.py:170-172) and is re-raised as `HTTPException(500, str(e))`. -/
def generar_orden_medica (env : Env) (st : DB) (orden : OrdenMedicaIn) :
    HttpResult StatusMsg × DB :=
  match conectar_db env with
  | none => (HttpResult.err 500 "Error de conexión a DB", st)
  | some _ =>
    match generar_try st orden with
    | Except.ok (body, st') => (HttpResult.ok 200 body, st')
    | Except.error e => (HttpResult.err 500 (pyExcStr e), st)

-- ### GET /auditoria/historial (main.py:174-190)

/-- `ORDER BY fecha_emision DESC` on the `auditoria_examenes` table. -/
def emisionDescRel (a b : AuditoriaExamen) : Prop :=
  b.fecha_emision ≤ a.fecha_emision

instance : DecidableRel emisionDescRel := fun a b =>
  inferInstanceAs (Decidable (b.fecha_emision ≤ a.fecha_emision))

instance : IsTotal AuditoriaExamen emisionDescRel :=
  ⟨fun a b => Nat.le_total b.fecha_emision a.fecha_emision⟩

instance : IsTrans AuditoriaExamen emisionDescRel :=
  ⟨fun _ _ _ h h' => Nat.le_trans h' h⟩

/-- `obtener_historial_auditoria` (main.py:174-190): select every audit
record ordered by emission timestamp descending. -/
def obtener_historial_auditoria (env : Env) (st : DB) :
    HttpResult (List AuditoriaExamen) × DB :=
  match conectar_db env with
  | none => (HttpResult.err 500 "Error de conexión a DB", st)
  | some _ =>
    (HttpResult.ok 200 (List.insertionSort emisionDescRel st.auditoria_examenes), st)

-- ### POST /ordenes/nueva (not under src/; modelled from the spec)

/-- Modelled from the spec: the body of `POST /ordenes/nueva` —
`{folio_cotizacion, rut_paciente, examenes: list}` (spec §6), where the exam
items use the same display-oriented keys as the quotation editor (spec §8
scenario). -/
structure OrdenNuevaIn where
  folio_cotizacion : String
  rut_paciente : String
  examenes : List ItemDict
deriving Repr, DecidableEq

/-- Modelled from the spec: the success body of `POST /ordenes/nueva`,
`{status: success, folio_orden: integer}` (spec §6). -/
structure OrdenNuevaResp where
  status : String
  folio_orden : Nat
deriving Repr, DecidableEq

/-- Modelled from the spec: inserting one Order Line Item of
`POST /ordenes/nueva` — the display-keyed exam item is normalized to
`codigo_examen`/`nombre_examen` (spec §3 and §8 scenario); a value not
adaptable to the `text` name column makes the insert fail. -/
def normalizeOrdenItem (folioOrden : Nat) (d : ItemDict) :
    Except PyExc OrdenDetalle :=
  let codigo := pyStr (d.codigoIngreso.getD (PyVal.str ""))
  match pyText? (d.nombrePrestacion.getD (PyVal.str "")) with
  | none => Except.error (PyExc.dbError "column nombre_examen is of type text")
  | some nom => Except.ok (OrdenDetalle.mk folioOrden codigo nom)

/-- Modelled from the spec: inserting the Order header of
`POST /ordenes/nueva` — the `folio_orden` is system-assigned and
sequential, and the uniqueness constraint on the originating-quotation
reference (spec §3, §4.3, §5: a quotation converts to an order at most
once, enforced at the database level) makes the insert raise a unique
violation when an Order for that quotation already exists. -/
def insertOrdenNueva (st : DB) (folioCot rut : String) : Except PyExc DB :=
  if st.ordenes_nuevas.any (fun o => o.folio_cotizacion == folioCot) then
    Except.error (PyExc.uniqueViolation
      "duplicate key value violates unique constraint")
  else
    Except.ok { st with ordenes_nuevas := (st.ordenes_nuevas ++
      [OrdenNueva.mk (st.ordenes_nuevas.length + 1) folioCot rut]) }

/-- Modelled from the spec: the transaction of `POST /ordenes/nueva`
(spec §4.3) — insert the Order header (rejected by the uniqueness
constraint if the quotation was already converted), then insert every
Order Line Item; the commit covers both. -/
def ordenes_nueva_try (st : DB) (inp : OrdenNuevaIn) :
    Except PyExc (OrdenNuevaResp × DB) := do
  let st1 ← insertOrdenNueva st inp.folio_cotizacion inp.rut_paciente
  let dets ← execEach (normalizeOrdenItem (st.ordenes_nuevas.length + 1)) inp.examenes
  let st2 := { st1 with ordenes_detalles := (st1.ordenes_detalles ++ dets) }
  Except.ok (OrdenNuevaResp.mk "success" (st.ordenes_nuevas.length + 1), st2)

/-- Modelled from the spec: the `POST /ordenes/nueva` handler, absent from
`src/main.py` — success is 201 with `{status: success, folio_orden}`; any
failure mid-transaction rolls the whole transaction back and surfaces 500
(spec §6). -/
def ordenes_nueva (env : Env) (st : DB) (inp : OrdenNuevaIn) :
    HttpResult OrdenNuevaResp × DB :=
  match conectar_db env with
  | none => (HttpResult.err 500 "Error de conexión a DB", st)
  | some _ =>
    match ordenes_nueva_try st inp with
    | Except.ok (body, st') => (HttpResult.ok 201 body, st')
    | Except.error e => (HttpResult.err 500 (pyExcStr e), st)

-- ### Concrete fixtures used by witnesses and counterexamples

/-- An environment whose five `POSTGRES_*` variables are set and whose
database is reachable. -/
def env0 : Env := ⟨some "db.internal", some "cerebro", some "api", some "pw", some "5432", true⟩

/-- An environment with `POSTGRES_HOST` absent. -/
def envNoHost : Env := ⟨none, some "cerebro", some "api", some "pw", some "5432", true⟩

/-- A fully-populated replacement item using the display-oriented keys. -/
def itemGood : ItemDict :=
  ⟨some (PyVal.str "EX1"), some (PyVal.str "Hemograma"), some (PyVal.int 500)⟩

/-- A replacement item whose copay value is a non-numeric string, so
`int()` raises while the insert parameters are built. -/
def itemBadCopago : ItemDict := ⟨some (PyVal.str "EX2"), none, some (PyVal.str "abc")⟩

/-- A database holding one line item for quotation folio `F1`. -/
def stOneDetalle : DB :=
  { DB.empty with detalle_cotizaciones := [⟨"F1", "OLD", "Examen antiguo", 100⟩] }

/-- The conversion request of the spec §8 scenario. -/
def orden0 : OrdenMedicaIn := ⟨"F100", "11.111.111-1"⟩

/-- An `/ordenes/nueva` request carrying one display-keyed exam item. -/
def inp6 : OrdenNuevaIn :=
  ⟨"F100", "11.111.111-1", [⟨some (PyVal.str "EX1"), some (PyVal.str "Hemograma"), none⟩]⟩

/-- A database holding one quotation for patient `11.111.111-1`. -/
def stC7 : DB :=
  { DB.empty with cotizaciones := [⟨"F1", "11.111.111-1", "A B", 20240101, 500⟩] }

/-- An audit request for two exam codes. -/
def audit8 : AuditoriaOrdenIn := ⟨"11.111.111-1", "A B", "F100", 2, ["EX1", "EX2"]⟩

-- ### Helper lemmas

/-- A successfully normalized item stores the folio, the `str()` of the
code value, the text-adapted name value and the `int()` of the copay
value. -/
theorem normalizeItem_spec {folio : String} {d : ItemDict} {row : DetalleCotizacion}
    (h : normalizeItem folio d = Except.ok row) :
    row.folio_cotizacion = folio
    ∧ row.codigo_examen = pyStr (d.codigoIngreso.getD (PyVal.str ""))
    ∧ pyText? (d.nombrePrestacion.getD (PyVal.str "")) = some row.nombre_examen
    ∧ pyInt? (d.copago.getD (PyVal.int 0)) = some row.valor_copago := by
  unfold normalizeItem at h
  cases hint : pyInt? (d.copago.getD (PyVal.int 0)) <;> rw [hint] at h
  · cases h
  · cases htext : pyText? (d.nombrePrestacion.getD (PyVal.str "")) <;> rw [htext] at h
    · cases h
    · cases h
      exact ⟨rfl, rfl, rfl, rfl⟩

/-- The insert loop over an empty item list succeeds with no rows. -/
theorem execEach_nil {α β : Type} (f : α → Except PyExc β) :
    execEach f [] = Except.ok [] := rfl

/-- A successful insert loop over `a :: l` decomposes into a successful
head step and a successful tail loop. -/
theorem execEach_ok_cons {α β : Type} {f : α → Except PyExc β} {a : α} {l : List α}
    {bs : List β} (h : execEach f (a :: l) = Except.ok bs) :
    ∃ b bs', f a = Except.ok b ∧ execEach f l = Except.ok bs' ∧ bs = b :: bs' := by
  unfold execEach at h
  cases ha : f a <;> rw [ha] at h
  · cases h
  · cases hl : execEach f l <;> rw [hl] at h
    · cases h
    · cases h
      exact ⟨_, _, rfl, rfl, rfl⟩

/-- Every output of a successful insert loop is the image of some input. -/
theorem execEach_ok_forall {α β : Type} {f : α → Except PyExc β} :
    ∀ {l : List α} {bs : List β}, execEach f l = Except.ok bs →
      ∀ b ∈ bs, ∃ a ∈ l, f a = Except.ok b := by
  intro l
  induction l with
  | nil => intro bs h b hb; rw [execEach_nil] at h; cases h; cases hb
  | cons a l ih =>
    intro bs h b hb
    obtain ⟨b0, bs', ha, hl, rfl⟩ := execEach_ok_cons h
    rcases List.mem_cons.mp hb with rfl | hb'
    · exact ⟨a, List.mem_cons_self a l, ha⟩
    · obtain ⟨a', ha', hfa⟩ := ih hl b hb'
      exact ⟨a', List.mem_cons_of_mem a ha', hfa⟩

/-- The insert loop raises whenever some input always fails. -/
theorem execEach_error_of_mem {α β : Type} {f : α → Except PyExc β} :
    ∀ {l : List α} {a : α}, a ∈ l → (∀ b, f a ≠ Except.ok b) →
      ∃ e, execEach f l = Except.error e := by
  intro l
  induction l with
  | nil => intro a ha; cases ha
  | cons x l ih =>
    intro a ha hfail
    rcases List.mem_cons.mp ha with rfl | ha'
    · cases hx : f a with
      | error e => exact ⟨e, by unfold execEach; rw [hx]; rfl⟩
      | ok b => exact absurd hx (hfail b)
    · cases hx : f x with
      | error e => exact ⟨e, by unfold execEach; rw [hx]; rfl⟩
      | ok b =>
        obtain ⟨e, he⟩ := ih ha' hfail
        exact ⟨e, by unfold execEach; rw [hx, he]; rfl⟩

/-- Shape of a successful `POST /cotizaciones/actualizar`: the folio's old
line items are deleted and the normalized replacement rows appended. -/
theorem actualizar_ok {env : Env} {st : DB} {data : ActualizarCotizacionIn}
    {rows : List DetalleCotizacion} (hconn : conectar_db env = some ())
    (hrows : execEach (normalizeItem data.folio) data.items = Except.ok rows) :
    actualizar_cotizacion env st data
      = (HttpResult.ok 200 (StatusMsg.mk "success"
          ("Detalle del folio " ++ data.folio ++ " actualizado")),
         { st with detalle_cotizaciones := (st.detalle_cotizaciones.filter
             (fun r => r.folio_cotizacion != data.folio) ++ rows) }) := by
  unfold actualizar_cotizacion
  rw [hconn]
  unfold actualizar_try
  rw [hrows]
  rfl

/-- Shape of a failing `POST /cotizaciones/actualizar`: HTTP 500 and the
database keeps its prior state. -/
theorem actualizar_err {env : Env} {st : DB} {data : ActualizarCotizacionIn}
    {e : PyExc} (hconn : conectar_db env = some ())
    (herr : execEach (normalizeItem data.folio) data.items = Except.error e) :
    actualizar_cotizacion env st data = (HttpResult.err 500 (pyExcStr e), st) := by
  unfold actualizar_cotizacion
  rw [hconn]
  unfold actualizar_try
  rw [herr]
  rfl

/-- Rows surviving the delete step never match the deleted folio. -/
theorem filter_ne_then_eq (folio : String) (l : List DetalleCotizacion) :
    (l.filter (fun r => r.folio_cotizacion != folio)).filter
      (fun r => r.folio_cotizacion == folio) = [] := by
  rw [List.filter_filter]
  refine List.filter_eq_nil_iff.mpr (fun r _ => ?_)
  by_cases h : r.folio_cotizacion = folio <;> simp [h]

/-- Filtering by a folio keeps every row already known to carry it. -/
theorem filter_eq_of_forall {rows : List DetalleCotizacion} {folio : String}
    (h : ∀ r ∈ rows, r.folio_cotizacion = folio) :
    rows.filter (fun r => r.folio_cotizacion == folio) = rows :=
  List.filter_eq_self.mpr (fun r hr => by simp [h r hr])

/-- Shape of a successful `POST /ordenes/generar`: the order row is
appended. -/
theorem generar_ok {env : Env} {st : DB} {orden : OrdenMedicaIn}
    (hconn : conectar_db env = some ())
    (hfree : st.ordenes_medicas.any (fun o => o.folio_cotizacion == orden.folio) = false) :
    generar_orden_medica env st orden
      = (HttpResult.ok 200 (StatusMsg.mk "success"
          ("Orden vinculada al folio " ++ orden.folio)),
         { st with ordenes_medicas :=
           (st.ordenes_medicas ++ [OrdenMedica.mk orden.folio orden.rut]) }) := by
  unfold generar_orden_medica
  rw [hconn]
  unfold generar_try insertOrdenMedica
  rw [hfree]
  rfl

/-- Shape of a conflicting `POST /ordenes/generar`: the unique violation is
surfaced as HTTP 500 by the generic `except` clause and nothing is
inserted. -/
theorem generar_conflict {env : Env} {st : DB} {orden : OrdenMedicaIn}
    (hconn : conectar_db env = some ())
    (htaken : st.ordenes_medicas.any (fun o => o.folio_cotizacion == orden.folio) = true) :
    generar_orden_medica env st orden
      = (HttpResult.err 500 "duplicate key value violates unique constraint", st) := by
  unfold generar_orden_medica
  rw [hconn]
  unfold generar_try insertOrdenMedica
  rw [htaken]
  rfl

/-- Shape of `GET /cotizaciones/detalle/{folio}` under a live connection. -/
theorem obtener_detalle_eq {env : Env} {st : DB} {folio : String}
    (hconn : conectar_db env = some ()) :
    obtener_detalle_cotizacion env st folio
      = (HttpResult.ok 200
          ((st.detalle_cotizaciones.filter (fun r => r.folio_cotizacion == folio)).map
            (fun r => DetalleBase.mk r.codigo_examen r.nombre_examen r.valor_copago)),
         st) := by
  unfold obtener_detalle_cotizacion
  rw [hconn]

-- ### Claims

/-- Claim C1 (counterexample).  For the quotation folio `F100` on an empty
database, the first `POST /ordenes/generar` succeeds, and the second call
with the same folio hits the uniqueness constraint but is surfaced as HTTP
500 — not HTTP 400 as the claim states — while creating no new Order
row. -/
theorem generar_second_call_500_not_400 :
    (generar_orden_medica env0 DB.empty orden0).1
      = HttpResult.ok 200 (StatusMsg.mk "success" "Orden vinculada al folio F100")
    ∧ (generar_orden_medica env0
        (generar_orden_medica env0 DB.empty orden0).2 orden0).1
        = HttpResult.err 500 "duplicate key value violates unique constraint"
    ∧ (∀ d, (generar_orden_medica env0
        (generar_orden_medica env0 DB.empty orden0).2 orden0).1
          ≠ HttpResult.err 400 d)
    ∧ (generar_orden_medica env0
        (generar_orden_medica env0 DB.empty orden0).2 orden0).2
        = (generar_orden_medica env0 DB.empty orden0).2 := by
  refine ⟨rfl, rfl, ?_, rfl⟩
  intro d h
  rw [show (generar_orden_medica env0
      (generar_orden_medica env0 DB.empty orden0).2 orden0).1
      = HttpResult.err 500 "duplicate key value violates unique constraint"
    from rfl] at h
  injection h with h1 _
  exact absurd h1 (by decide)

/-- Claim C1 (amended).  For every quotation folio not yet converted,
`POST /ordenes/generar` succeeds the first time and appends exactly one
Order row; a second call with the same folio fails with the uniqueness
violation surfaced as HTTP 500 (the handler's generic `except` clause
catches every error) and creates no new Order row. -/
theorem generar_convert_once_then_conflict_500 (env : Env) (st : DB)
    (orden : OrdenMedicaIn) (hconn : conectar_db env = some ())
    (hfree : st.ordenes_medicas.any
      (fun o => o.folio_cotizacion == orden.folio) = false) :
    ∃ st', generar_orden_medica env st orden
        = (HttpResult.ok 200 (StatusMsg.mk "success"
            ("Orden vinculada al folio " ++ orden.folio)), st')
      ∧ st'.ordenes_medicas
          = st.ordenes_medicas ++ [OrdenMedica.mk orden.folio orden.rut]
      ∧ generar_orden_medica env st' orden
          = (HttpResult.err 500 "duplicate key value violates unique constraint", st') := by
  refine ⟨_, generar_ok hconn hfree, rfl, generar_conflict hconn ?_⟩
  simp [List.any_append]

/-- Witness for C1 (amended) at folio `F100` on the empty database. -/
theorem generar_convert_once_then_conflict_500_witness :
    ∃ st', generar_orden_medica env0 DB.empty orden0
        = (HttpResult.ok 200 (StatusMsg.mk "success"
            "Orden vinculada al folio F100"), st')
      ∧ st'.ordenes_medicas = [] ++ [OrdenMedica.mk "F100" "11.111.111-1"]
      ∧ generar_orden_medica env0 st' orden0
          = (HttpResult.err 500 "duplicate key value violates unique constraint", st') :=
  generar_convert_once_then_conflict_500 env0 DB.empty orden0 rfl rfl

/-- Claim C2.  When the quotations table holds zero rows for the patient
identifier, `GET /cotizaciones/buscar/{rut}` does NOT respond 404: the
`HTTPException(404)` raised inside the `try` block (main.py:78) is caught
by the generic `except Exception` clause (main.py:80) and re-raised as
HTTP 500 whose detail is the stringified 404 exception. -/
theorem buscar_zero_rows_surfaces_500 :
    buscar_cotizaciones_por_rut env0 DB.empty "99.999.999-9"
      = (HttpResult.err 500 "404: No se encontraron cotizaciones", DB.empty) := rfl

/-- Claim C3.  For every folio with at least one stored line item and every
replacement list whose items all normalize, `POST /cotizaciones/actualizar`
followed by `GET /cotizaciones/detalle/{folio}` returns exactly the
normalized replacement rows, in the order the items were supplied. -/
theorem actualizar_then_detalle_returns_replacement (env : Env) (st : DB)
    (data : ActualizarCotizacionIn) (rows : List DetalleCotizacion)
    (hconn : conectar_db env = some ())
    (_hne : st.detalle_cotizaciones.filter
      (fun r => r.folio_cotizacion == data.folio) ≠ [])
    (hrows : execEach (normalizeItem data.folio) data.items = Except.ok rows) :
    obtener_detalle_cotizacion env (actualizar_cotizacion env st data).2 data.folio
      = (HttpResult.ok 200 (rows.map (fun r =>
          DetalleBase.mk r.codigo_examen r.nombre_examen r.valor_copago)),
         (actualizar_cotizacion env st data).2) := by
  have hall : ∀ r ∈ rows, r.folio_cotizacion = data.folio := by
    intro r hr
    obtain ⟨a, _, ha⟩ := execEach_ok_forall hrows r hr
    exact (normalizeItem_spec ha).1
  rw [actualizar_ok hconn hrows, obtener_detalle_eq hconn]
  rw [List.filter_append, filter_ne_then_eq, filter_eq_of_forall hall]
  rfl

/-- Witness for C3: replacing folio `F1`'s single old line item with one
edited item and reading the detail back. -/
theorem actualizar_then_detalle_returns_replacement_witness :
    obtener_detalle_cotizacion env0
        (actualizar_cotizacion env0 stOneDetalle ⟨"F1", [itemGood]⟩).2 "F1"
      = (HttpResult.ok 200 [DetalleBase.mk "EX1" "Hemograma" 500],
         (actualizar_cotizacion env0 stOneDetalle ⟨"F1", [itemGood]⟩).2) :=
  actualizar_then_detalle_returns_replacement env0 stOneDetalle ⟨"F1", [itemGood]⟩
    [⟨"F1", "EX1", "Hemograma", 500⟩] rfl (by decide) rfl

/-- Claim C4.  `POST /cotizaciones/actualizar` deletes every stored line
item of the folio and then appends the full normalized replacement set; in
particular an empty input list leaves the folio with no line items. -/
theorem actualizar_delete_then_insert (env : Env) (st : DB)
    (data : ActualizarCotizacionIn) (rows : List DetalleCotizacion)
    (hconn : conectar_db env = some ())
    (hrows : execEach (normalizeItem data.folio) data.items = Except.ok rows) :
    (actualizar_cotizacion env st data).2.detalle_cotizaciones
      = st.detalle_cotizaciones.filter (fun r => r.folio_cotizacion != data.folio)
        ++ rows
    ∧ (data.items = [] →
        (actualizar_cotizacion env st data).2.detalle_cotizaciones.filter
          (fun r => r.folio_cotizacion == data.folio) = []) := by
  constructor
  · rw [actualizar_ok hconn hrows]
  · intro hnil
    have hrnil : rows = [] := by
      rw [hnil, execEach_nil] at hrows
      exact ((Except.ok.injEq _ _).mp hrows).symm
    rw [actualizar_ok hconn hrows, hrnil, List.append_nil]
    exact filter_ne_then_eq _ _

/-- Witness for C4: replacing folio `F1`'s line items with the empty list
leaves the folio with no line items. -/
theorem actualizar_delete_then_insert_witness :
    (actualizar_cotizacion env0 stOneDetalle ⟨"F1", []⟩).2.detalle_cotizaciones
      = stOneDetalle.detalle_cotizaciones.filter (fun r => r.folio_cotizacion != "F1")
        ++ []
    ∧ ([] = ([] : List ItemDict) →
        (actualizar_cotizacion env0 stOneDetalle ⟨"F1", []⟩).2.detalle_cotizaciones.filter
          (fun r => r.folio_cotizacion == "F1") = []) :=
  actualizar_delete_then_insert env0 stOneDetalle ⟨"F1", []⟩ [] rfl rfl

/-- Claim C5.  Each replacement item's display-oriented fields are mapped
to the canonical storage columns, and a missing field is stored with its
default: the empty string for the exam code and exam name, zero for the
copay amount. -/
theorem actualizar_field_normalization (folio : String) (d : ItemDict)
    (row : DetalleCotizacion) (h : normalizeItem folio d = Except.ok row) :
    row.folio_cotizacion = folio
    ∧ (d.codigoIngreso = none → row.codigo_examen = "")
    ∧ (d.nombrePrestacion = none → row.nombre_examen = "")
    ∧ (d.copago = none → row.valor_copago = 0)
    ∧ (∀ s, d.codigoIngreso = some (PyVal.str s) → row.codigo_examen = s)
    ∧ (∀ s, d.nombrePrestacion = some (PyVal.str s) → row.nombre_examen = s)
    ∧ (∀ n, d.copago = some (PyVal.int n) → row.valor_copago = n) := by
  obtain ⟨hf, hc, hn, hp⟩ := normalizeItem_spec h
  refine ⟨hf, ?_, ?_, ?_, ?_, ?_, ?_⟩
  · intro h0; rw [h0] at hc; exact hc
  · intro h0; rw [h0] at hn
    simp only [Option.getD, pyText?, Option.some.injEq] at hn
    exact hn.symm
  · intro h0; rw [h0] at hp
    simp only [Option.getD, pyInt?, Option.some.injEq] at hp
    exact hp.symm
  · intro s h0; rw [h0] at hc; exact hc
  · intro s h0; rw [h0] at hn
    simp only [Option.getD, pyText?, Option.some.injEq] at hn
    exact hn.symm
  · intro n h0; rw [h0] at hp
    simp only [Option.getD, pyInt?, Option.some.injEq] at hp
    exact hp.symm

/-- Witness for C5: an item with all three keys absent is stored as
`("", "", 0)` under the requested folio. -/
theorem actualizar_field_normalization_witness :
    DetalleCotizacion.folio_cotizacion ⟨"F1", "", "", 0⟩ = "F1"
    ∧ ((none : Option PyVal) = none →
        DetalleCotizacion.codigo_examen ⟨"F1", "", "", 0⟩ = "")
    ∧ ((none : Option PyVal) = none →
        DetalleCotizacion.nombre_examen ⟨"F1", "", "", 0⟩ = "")
    ∧ ((none : Option PyVal) = none →
        DetalleCotizacion.valor_copago ⟨"F1", "", "", 0⟩ = 0)
    ∧ (∀ s, (none : Option PyVal) = some (PyVal.str s) →
        DetalleCotizacion.codigo_examen ⟨"F1", "", "", 0⟩ = s)
    ∧ (∀ s, (none : Option PyVal) = some (PyVal.str s) →
        DetalleCotizacion.nombre_examen ⟨"F1", "", "", 0⟩ = s)
    ∧ (∀ n, (none : Option PyVal) = some (PyVal.int n) →
        DetalleCotizacion.valor_copago ⟨"F1", "", "", 0⟩ = n) :=
  actualizar_field_normalization "F1" ⟨none, none, none⟩ ⟨"F1", "", "", 0⟩ rfl

/-- Claim C6 (modelled from the spec; `/ordenes/nueva` is not under
`src/`).  The endpoint accepts `{folio_cotizacion, rut_paciente, examenes}`
and, when the quotation has not been converted yet, responds 201 with
`{status: success, folio_orden}` — appending the Order header and its line
items; a quotation already converted is rejected by the uniqueness
constraint (surfaced as 500, not silently re-applied); and any failure
mid-transaction rolls the header insertion back, leaving the database
exactly as before: no partial order remains visible. -/
theorem ordenes_nueva_201_and_atomic (env : Env) (st : DB) (inp : OrdenNuevaIn)
    (hconn : conectar_db env = some ()) :
    (st.ordenes_nuevas.any
        (fun o => o.folio_cotizacion == inp.folio_cotizacion) = false →
      ∀ dets, execEach (normalizeOrdenItem (st.ordenes_nuevas.length + 1)) inp.examenes
        = Except.ok dets →
      ordenes_nueva env st inp
        = (HttpResult.ok 201 (OrdenNuevaResp.mk "success" (st.ordenes_nuevas.length + 1)),
           { st with
               ordenes_nuevas := (st.ordenes_nuevas
                 ++ [OrdenNueva.mk (st.ordenes_nuevas.length + 1)
                      inp.folio_cotizacion inp.rut_paciente]),
               ordenes_detalles := (st.ordenes_detalles ++ dets) }))
    ∧ (st.ordenes_nuevas.any
        (fun o => o.folio_cotizacion == inp.folio_cotizacion) = true →
      ordenes_nueva env st inp
        = (HttpResult.err 500 "duplicate key value violates unique constraint", st))
    ∧ (∀ status d st', ordenes_nueva env st inp = (HttpResult.err status d, st') →
        st' = st) := by
  refine ⟨?_, ?_, ?_⟩
  · intro hfree dets hdets
    unfold ordenes_nueva
    rw [hconn]
    unfold ordenes_nueva_try insertOrdenNueva
    rw [hfree, hdets]
    rfl
  · intro htaken
    unfold ordenes_nueva
    rw [hconn]
    unfold ordenes_nueva_try insertOrdenNueva
    rw [htaken]
    rfl
  · intro status d st' h
    unfold ordenes_nueva at h
    rw [hconn] at h
    cases htry : ordenes_nueva_try st inp with
    | ok p =>
      obtain ⟨body, st2⟩ := p
      rw [htry] at h
      injection h with h1 _
      cases h1
    | error e =>
      rw [htry] at h
      injection h with _ h2
      exact h2.symm

/-- Witness for C6: one exam item on the empty database yields 201 with
`folio_orden = 1` and both order tables written; converting the same
quotation folio a second time hits the uniqueness constraint and is
rejected with 500, appending nothing. -/
theorem ordenes_nueva_201_and_atomic_witness :
    ordenes_nueva env0 DB.empty inp6
      = (HttpResult.ok 201 (OrdenNuevaResp.mk "success" 1),
         { DB.empty with
             ordenes_nuevas := ([] ++ [OrdenNueva.mk 1 "F100" "11.111.111-1"]),
             ordenes_detalles := ([] ++ [OrdenDetalle.mk 1 "EX1" "Hemograma"]) })
    ∧ ordenes_nueva env0
        { DB.empty with
            ordenes_nuevas := ([] ++ [OrdenNueva.mk 1 "F100" "11.111.111-1"]),
            ordenes_detalles := ([] ++ [OrdenDetalle.mk 1 "EX1" "Hemograma"]) } inp6
      = (HttpResult.err 500 "duplicate key value violates unique constraint",
         { DB.empty with
             ordenes_nuevas := ([] ++ [OrdenNueva.mk 1 "F100" "11.111.111-1"]),
             ordenes_detalles := ([] ++ [OrdenDetalle.mk 1 "EX1" "Hemograma"]) }) :=
  ⟨(ordenes_nueva_201_and_atomic env0 DB.empty inp6 rfl).1 rfl
      [OrdenDetalle.mk 1 "EX1" "Hemograma"] rfl,
   (ordenes_nueva_201_and_atomic env0
      { DB.empty with
          ordenes_nuevas := ([] ++ [OrdenNueva.mk 1 "F100" "11.111.111-1"]),
          ordenes_detalles := ([] ++ [OrdenDetalle.mk 1 "EX1" "Hemograma"]) } inp6
      rfl).2.1 rfl⟩

/-- Claim C7.  For every patient identifier with at least one matching
quotation, `GET /cotizaciones/buscar/{rut}` returns exactly the Quotation
rows whose `documento_id` matches, ordered by `fecha_cotizacion`
descending. -/
theorem buscar_returns_matches_sorted (env : Env) (st : DB) (rut : String)
    (hconn : conectar_db env = some ())
    (hne : st.cotizaciones.filter (fun c => c.documento_id == rut) ≠ []) :
    ∃ rows, buscar_cotizaciones_por_rut env st rut = (HttpResult.ok 200 rows, st)
      ∧ List.Perm rows (st.cotizaciones.filter (fun c => c.documento_id == rut))
      ∧ List.Sorted fechaDescRel rows := by
  refine ⟨_, ?_, List.perm_insertionSort _ _, List.sorted_insertionSort _ _⟩
  unfold buscar_cotizaciones_por_rut
  rw [hconn]
  have hni : (List.insertionSort fechaDescRel
      (st.cotizaciones.filter (fun c => c.documento_id == rut))).isEmpty = false := by
    rw [List.isEmpty_eq_false]
    intro h0
    have hperm := List.perm_insertionSort fechaDescRel
      (st.cotizaciones.filter (fun c => c.documento_id == rut))
    rw [h0] at hperm
    exact hne (List.nil_perm.mp hperm)
  unfold buscar_try
  rw [hni]
  rfl

/-- Witness for C7 at a database holding one matching quotation. -/
theorem buscar_returns_matches_sorted_witness :
    ∃ rows, buscar_cotizaciones_por_rut env0 stC7 "11.111.111-1"
        = (HttpResult.ok 200 rows, stC7)
      ∧ List.Perm rows (stC7.cotizaciones.filter (fun c => c.documento_id == "11.111.111-1"))
      ∧ List.Sorted fechaDescRel rows :=
  buscar_returns_matches_sorted env0 stC7 "11.111.111-1" rfl (by decide)

/-- Claim C8.  Every audit record successfully written by
`POST /auditoria/ordenes` appears in the result of
`GET /auditoria/historial`, and the history is ordered by emission
timestamp descending. -/
theorem auditoria_record_in_history_sorted (env : Env) (st : DB)
    (audit : AuditoriaOrdenIn) (now : Nat) (hconn : conectar_db env = some ()) :
    ∃ st' rows,
      registrar_auditoria env st audit now
        = (HttpResult.ok 200 (StatusMsg.mk "success" "Auditoría registrada"), st')
      ∧ obtener_historial_auditoria env st' = (HttpResult.ok 200 rows, st')
      ∧ auditRow audit now ∈ rows
      ∧ List.Sorted emisionDescRel rows := by
  refine ⟨{ st with auditoria_examenes := (st.auditoria_examenes ++ [auditRow audit now]) },
    List.insertionSort emisionDescRel (st.auditoria_examenes ++ [auditRow audit now]),
    ?_, ?_, ?_, List.sorted_insertionSort _ _⟩
  · unfold registrar_auditoria
    rw [hconn]
  · unfold obtener_historial_auditoria
    rw [hconn]
  · rw [List.mem_insertionSort]
    exact List.mem_append_right _ (List.mem_singleton.mpr rfl)

/-- Witness for C8: one audit record written at timestamp 77 on the empty
database is listed by the history endpoint. -/
theorem auditoria_record_in_history_sorted_witness :
    ∃ st' rows,
      registrar_auditoria env0 DB.empty audit8 77
        = (HttpResult.ok 200 (StatusMsg.mk "success" "Auditoría registrada"), st')
      ∧ obtener_historial_auditoria env0 st' = (HttpResult.ok 200 rows, st')
      ∧ auditRow audit8 77 ∈ rows
      ∧ List.Sorted emisionDescRel rows :=
  auditoria_record_in_history_sorted env0 DB.empty audit8 77 rfl

/-- Claim C9.  When `POSTGRES_HOST` is absent, `conectar_db` returns no
connection, so every endpoint fails with HTTP 500 `"Error de conexión a
DB"` before any database operation, leaving the database untouched. -/
theorem no_host_every_endpoint_500 (env : Env) (hhost : env.postgres_host = none)
    (st : DB) (rut folio : String) (data : ActualizarCotizacionIn)
    (audit : AuditoriaOrdenIn) (now : Nat) (orden : OrdenMedicaIn)
    (inp : OrdenNuevaIn) :
    buscar_cotizaciones_por_rut env st rut
      = (HttpResult.err 500 "Error de conexión a DB", st)
    ∧ obtener_detalle_cotizacion env st folio
      = (HttpResult.err 500 "Error de conexión a DB", st)
    ∧ actualizar_cotizacion env st data
      = (HttpResult.err 500 "Error de conexión a DB", st)
    ∧ registrar_auditoria env st audit now
      = (HttpResult.err 500 "Error de conexión a DB", st)
    ∧ generar_orden_medica env st orden
      = (HttpResult.err 500 "Error de conexión a DB", st)
    ∧ obtener_historial_auditoria env st
      = (HttpResult.err 500 "Error de conexión a DB", st)
    ∧ ordenes_nueva env st inp
      = (HttpResult.err 500 "Error de conexión a DB", st) := by
  have hc : conectar_db env = none := by
    unfold conectar_db
    rw [hhost]
  refine ⟨?_, ?_, ?_, ?_, ?_, ?_, ?_⟩
  · unfold buscar_cotizaciones_por_rut
    rw [hc]
  · unfold obtener_detalle_cotizacion
    rw [hc]
  · unfold actualizar_cotizacion
    rw [hc]
  · unfold registrar_auditoria
    rw [hc]
  · unfold generar_orden_medica
    rw [hc]
  · unfold obtener_historial_auditoria
    rw [hc]
  · unfold ordenes_nueva
    rw [hc]

/-- Witness for C9: with `POSTGRES_HOST` unset, each of the seven
endpoints answers 500 on the empty database. -/
theorem no_host_every_endpoint_500_witness :
    buscar_cotizaciones_por_rut envNoHost DB.empty "11.111.111-1"
      = (HttpResult.err 500 "Error de conexión a DB", DB.empty)
    ∧ obtener_detalle_cotizacion envNoHost DB.empty "F1"
      = (HttpResult.err 500 "Error de conexión a DB", DB.empty)
    ∧ actualizar_cotizacion envNoHost DB.empty ⟨"F1", []⟩
      = (HttpResult.err 500 "Error de conexión a DB", DB.empty)
    ∧ registrar_auditoria envNoHost DB.empty audit8 77
      = (HttpResult.err 500 "Error de conexión a DB", DB.empty)
    ∧ generar_orden_medica envNoHost DB.empty orden0
      = (HttpResult.err 500 "Error de conexión a DB", DB.empty)
    ∧ obtener_historial_auditoria envNoHost DB.empty
      = (HttpResult.err 500 "Error de conexión a DB", DB.empty)
    ∧ ordenes_nueva envNoHost DB.empty inp6
      = (HttpResult.err 500 "Error de conexión a DB", DB.empty) :=
  no_host_every_endpoint_500 envNoHost rfl DB.empty "11.111.111-1" "F1"
    ⟨"F1", []⟩ audit8 77 orden0 inp6

/-- Claim C10.  `POST /cotizaciones/actualizar` commits only after the
delete and all inserts succeed: when some supplied item cannot be inserted
(for example its copay value is a non-numeric string), the handler answers
HTTP 500 and the database — in particular the folio's previously stored
line items — is left exactly as before. -/
theorem actualizar_failed_insert_no_commit (env : Env) (st : DB)
    (data : ActualizarCotizacionIn) (d : ItemDict)
    (hconn : conectar_db env = some ()) (hd : d ∈ data.items)
    (hfail : ∀ r, normalizeItem data.folio d ≠ Except.ok r) :
    ∃ e, actualizar_cotizacion env st data = (HttpResult.err 500 (pyExcStr e), st) := by
  obtain ⟨e, he⟩ := execEach_error_of_mem hd hfail
  exact ⟨e, actualizar_err hconn he⟩

/-- Witness for C10: an item whose copay is the string `"abc"` makes the
update fail with HTTP 500, leaving folio `F1`'s stored line item intact. -/
theorem actualizar_failed_insert_no_commit_witness :
    ∃ e, actualizar_cotizacion env0 stOneDetalle ⟨"F1", [itemBadCopago]⟩
      = (HttpResult.err 500 (pyExcStr e), stOneDetalle) :=
  actualizar_failed_insert_no_commit env0 stOneDetalle ⟨"F1", [itemBadCopago]⟩
    itemBadCopago rfl (List.mem_singleton.mpr rfl)
    (fun r h => by
      rw [show normalizeItem "F1" itemBadCopago
          = Except.error (PyExc.valueError "invalid literal for int() with base 10")
        from rfl] at h
      cases h)
